import Mathlib

/-!
Shallow embedding of the FlaskSetup portfolio/blog application (src/app.py):
data model (User, Project, Comment), session/identity resolution, the
admin gate, and each request handler, together with theorems settling the
specification claims.  Databases are modelled as in-memory lists, the
per-request session as an `Option Nat` user id, and each handler as a pure
function returning outcome, flashed messages, the updated store and the
updated session.  Nondeterministic inputs of the real system (random salt,
autoincrement ids, the current date) are passed to the handlers explicitly.
-/

/-! ## Credential store (werkzeug key-derivation, modelled from the spec) -/

/-- Modelled from the spec: the key-derivation step of the Credential Store
(werkzeug pbkdf2, a library external to src/) is modelled as an ideal,
collision-free salted derivation: it combines the salt with the plaintext
injectively.  The real `pbkdf2:sha256` is collision-resistant; the model
makes that idealisation exact. -/
def derive (salt plaintext : String) : String :=
  salt ++ "|" ++ plaintext

/-- A password hash carries the method, the embedded salt and the derived
digest (werkzeug encodes these as `method$salt$digest`). -/
structure PasswordHash where
  method : String
  salt : String
  digest : String
deriving Repr, DecidableEq

/-- Modelled from the spec: `hash_password(plaintext)` derives a salted hash
with a randomized salt; the random salt is passed explicitly. -/
def hash_password (salt plaintext : String) : PasswordHash :=
  ⟨"pbkdf2:sha256", salt, derive salt plaintext⟩

/-- Modelled from the spec: `verify_password(plaintext, hash)` recomputes the
derivation from the salt embedded in `hash` and compares digests; a hash with
an unexpected method is treated as a verification failure, never an error. -/
def verify_password (plaintext : String) (h : PasswordHash) : Bool :=
  h.method == "pbkdf2:sha256" && derive h.salt plaintext == h.digest

/-- werkzeug argument order: hash first, then the candidate password. -/
def check_password_hash (pwhash : PasswordHash) (password : String) : Bool :=
  verify_password password pwhash

/-! ## Data model (src/app.py lines 35-66) -/

/-- `users` table: id (primary key), unique email, password hash, name. -/
structure User where
  id : Nat
  email : String
  password : PasswordHash
  name : String
deriving Repr, DecidableEq

/-- `projects` table: id, nullable author FK, unique title, subtitle,
date string, body, image URL. -/
structure Project where
  id : Nat
  author_id : Option Nat
  title : String
  subtitle : String
  date : String
  body : String
  img_url : String
deriving Repr, DecidableEq

/-- `comments` table: id, nullable project FK, nullable author FK, text.
Both foreign-key columns are declared without `nullable=False` in the
source, so a null reference is accepted by the store. -/
structure Comment where
  id : Nat
  project_id : Option Nat
  author_id : Option Nat
  text : String
deriving Repr, DecidableEq

/-- The relational store: the three tables. -/
structure Store where
  users : List User
  projects : List Project
  comments : List Comment
deriving Repr, DecidableEq

/-! ## Session / identity resolution (flask_login, src/app.py lines 29-31) -/

/-- Current identity per request: Anonymous or Authenticated with a user id. -/
inductive Identity where
  | Anonymous
  | Authenticated (user_id : Nat)
deriving Repr, DecidableEq

/-- `load_user` (src line 30): resolve a session user id to a User row. -/
def load_user (s : Store) (user_id : Nat) : Option User :=
  s.users.find? (fun u => u.id == user_id)

/-- flask_login resolution: an absent session token, or a token whose user
no longer exists, degrades to Anonymous without raising. -/
def current_identity (s : Store) (sess : Option Nat) : Identity :=
  match sess with
  | none => .Anonymous
  | some uid =>
    match load_user s uid with
    | none => .Anonymous
    | some u => .Authenticated u.id

/-- `current_user.id` as an attribute access: flask_login's
`AnonymousUserMixin` defines no `id` attribute, so the access has no value
for an Anonymous identity (in Python it raises `AttributeError`). -/
def current_user_id : Identity → Option Nat
  | .Anonymous => none
  | .Authenticated uid => some uid

/-! ## Handler plumbing -/

/-- Redirect targets, named after the route functions they point at. -/
inductive Route where
  | get_all_projects
  | login
  | show_project (project_id : Nat)
deriving Repr, DecidableEq

/-- What a handler returns to the HTTP layer: a rendered template, a
redirect, an explicit HTTP status (`abort(403)`), or an unhandled Python
exception escaping the handler ("crash"). -/
inductive Outcome where
  | render (template : String)
  | redirect (target : Route)
  | httpError (code : Nat)
  | crash (exc : String)
deriving Repr, DecidableEq

/-- The full effect of one request: the outcome, the flashed messages, the
store after commit (unchanged when nothing was committed), and the session
after the request (`login_user` / `logout_user` update it). -/
structure HandlerResult where
  outcome : Outcome
  flashes : List String
  store : Store
  session : Option Nat
deriving Repr, DecidableEq

/-! ## Authorization gate (src/app.py lines 69-75) -/

/-- Decision of the `admin_only` decorator body `if current_user.id != 1`:
an Anonymous `current_user` has no `id` attribute, so the comparison itself
raises `AttributeError`; an authenticated non-admin gets `abort(403)`;
the admin proceeds to the wrapped handler. -/
inductive GateDecision where
  | attrError
  | forbidden
  | proceed
deriving Repr, DecidableEq

def admin_only_gate : Identity → GateDecision
  | .Anonymous => .attrError
  | .Authenticated uid => if uid ≠ 1 then .forbidden else .proceed

/-- The `admin_only` decorator around an inner handler result. -/
def admin_only (s : Store) (sess : Option Nat) (inner : HandlerResult) :
    HandlerResult :=
  match admin_only_gate (current_identity s sess) with
  | .attrError => ⟨.crash "AttributeError", [], s, sess⟩
  | .forbidden => ⟨.httpError 403, [], s, sess⟩
  | .proceed => inner

/-! ## Request handlers (src/app.py lines 84-216) -/

/-- Submitted registration form data (a `none` submission is a GET or a
form that failed WTForms validation). -/
structure RegisterForm where
  email : String
  password : String
  name : String
deriving Repr, DecidableEq

/-- `register` (src lines 84-110): duplicate email flashes a warning and
redirects to login without touching the store; otherwise the password is
hashed with a fresh salt, the user row is inserted with the next
autoincrement id, and the new user is logged in. -/
def register (s : Store) (sess : Option Nat) (submitted : Option RegisterForm)
    (salt : String) (new_id : Nat) : HandlerResult :=
  match submitted with
  | some form =>
    match s.users.find? (fun u => u.email == form.email) with
    | some _ =>
      ⟨.redirect .login,
       ["You\x27ve already signed up with that email, log in instead!"],
       s, sess⟩
    | none =>
      let new_user : User :=
        ⟨new_id, form.email, hash_password salt form.password, form.name⟩
      ⟨.redirect .get_all_projects, [],
       { s with users := s.users ++ [new_user] }, some new_id⟩
  | none => ⟨.render "register.html", [], s, sess⟩

/-- Submitted login form data. -/
structure LoginForm where
  email : String
  password : String
deriving Repr, DecidableEq

/-- `login` (src lines 113-131): unknown email and wrong password each
flash a distinct warning and redirect back to login; success calls
`login_user` and redirects to the project list. -/
def login (s : Store) (sess : Option Nat) (submitted : Option LoginForm) :
    HandlerResult :=
  match submitted with
  | some form =>
    match s.users.find? (fun u => u.email == form.email) with
    | none =>
      ⟨.redirect .login, ["That email does not exist, please try again."],
       s, sess⟩
    | some user =>
      if !check_password_hash user.password form.password then
        ⟨.redirect .login, ["Password incorrect, please try again."], s, sess⟩
      else
        ⟨.redirect .get_all_projects, [], s, some user.id⟩
  | none => ⟨.render "login.html", [], s, sess⟩

/-- `logout` (src lines 134-137): `logout_user()` then redirect to the
project list, whatever the prior identity. -/
def logout (s : Store) (sess : Option Nat) : HandlerResult :=
  ⟨.redirect .get_all_projects, [], s, none⟩

/-- `show_project` (src lines 140-158): look up the project (possibly
absent), and on a validated comment submission either bounce an Anonymous
visitor to login, or insert a comment whose author is the current user and
whose project reference is the looked-up project — `none` when the id was
absent, since `parent_project=None` leaves the nullable FK null.  The page
is rendered after the insert (and on GET), even when the project is absent. -/
def show_project (s : Store) (sess : Option Nat) (project_id : Nat)
    (submitted : Option String) (new_comment_id : Nat) : HandlerResult :=
  let requested_project := s.projects.find? (fun p => p.id == project_id)
  match submitted with
  | some text =>
    match current_identity s sess with
    | .Anonymous =>
      ⟨.redirect .login, ["You need to login or register to comment."],
       s, sess⟩
    | .Authenticated uid =>
      let new_comment : Comment :=
        ⟨new_comment_id, requested_project.map (fun p => p.id), some uid, text⟩
      ⟨.render "project.html", [],
       { s with comments := s.comments ++ [new_comment] }, sess⟩
  | none => ⟨.render "project.html", [], s, sess⟩

/-- Submitted project-creation/edit form data. -/
structure CreateProjectForm where
  title : String
  subtitle : String
  body : String
  img_url : String
deriving Repr, DecidableEq

/-- Body of `add_new_project` (src lines 166-183), inside the gate: insert
a project authored by the current user and dated today.  The `commit()`
hits the store-level `unique=True` constraint on `title` (src line 50): a
duplicate title raises `IntegrityError` and nothing is committed. -/
def add_new_project_inner (s : Store) (sess : Option Nat)
    (submitted : Option CreateProjectForm) (today : String) (new_id : Nat) :
    HandlerResult :=
  match submitted with
  | some form =>
    if s.projects.any (fun p => p.title == form.title) then
      ⟨.crash "IntegrityError", [], s, sess⟩
    else
      ⟨.redirect .get_all_projects, [],
       { s with projects := s.projects ++
           [⟨new_id, current_user_id (current_identity s sess), form.title,
             form.subtitle, today, form.body, form.img_url⟩] }, sess⟩
  | none => ⟨.render "make-project.html", [], s, sess⟩

/-- `add_new_project` with its `admin_only` decorator. -/
def add_new_project (s : Store) (sess : Option Nat)
    (submitted : Option CreateProjectForm) (today : String) (new_id : Nat) :
    HandlerResult :=
  admin_only s sess (add_new_project_inner s sess submitted today new_id)

/-- Body of `edit_project` (src lines 188-207), inside the gate: the form
is pre-filled from `project.title` etc. before `validate_on_submit`, so a
missing id dereferences `None` and raises `AttributeError` on GET and POST
alike.  On submission the four form fields overwrite the row in place
(author and date untouched) and the commit redirects to the detail page;
a title colliding with a different row violates the unique constraint. -/
def edit_project_inner (s : Store) (sess : Option Nat) (project_id : Nat)
    (submitted : Option CreateProjectForm) : HandlerResult :=
  match s.projects.find? (fun p => p.id == project_id) with
  | none => ⟨.crash "AttributeError", [], s, sess⟩
  | some project =>
    match submitted with
    | some form =>
      if s.projects.any (fun q => q.id != project.id && q.title == form.title)
      then ⟨.crash "IntegrityError", [], s, sess⟩
      else
        ⟨.redirect (.show_project project.id), [],
         { s with projects := s.projects.map (fun q =>
             if q.id == project.id then
               { q with title := form.title, subtitle := form.subtitle,
                        img_url := form.img_url, body := form.body }
             else q) }, sess⟩
    | none => ⟨.render "make-project.html", [], s, sess⟩

/-- `edit_project` with its `admin_only` decorator. -/
def edit_project (s : Store) (sess : Option Nat) (project_id : Nat)
    (submitted : Option CreateProjectForm) : HandlerResult :=
  admin_only s sess (edit_project_inner s sess project_id submitted)

/-- Body of `delete_project` (src lines 210-216), inside the gate:
`db.session.delete(None)` on a missing id raises (SQLAlchemy
`UnmappedInstanceError`); otherwise the row is deleted and, the
relationship having no delete cascade, the children's nullable
`project_id` FK is set to null on commit. -/
def delete_project_inner (s : Store) (sess : Option Nat) (project_id : Nat) :
    HandlerResult :=
  match s.projects.find? (fun p => p.id == project_id) with
  | none => ⟨.crash "UnmappedInstanceError", [], s, sess⟩
  | some project =>
    ⟨.redirect .get_all_projects, [],
     { s with
         projects := s.projects.erase project,
         comments := s.comments.map (fun c =>
           if c.project_id == some project.id then { c with project_id := none }
           else c) }, sess⟩

/-- `delete_project` with its `admin_only` decorator. -/
def delete_project (s : Store) (sess : Option Nat) (project_id : Nat) :
    HandlerResult :=
  admin_only s sess (delete_project_inner s sess project_id)

/-! ## Concrete fixtures for witnesses and counterexamples -/

/-- Fixture: a store holding only the admin user (id 1). -/
def adminStore : Store :=
  ⟨[⟨1, "a@x.com", hash_password "s0" "pw", "A"⟩], [], []⟩

/-- Fixture: the admin user plus one project (id 5, title "T1"). -/
def adminProjectStore : Store :=
  ⟨[⟨1, "a@x.com", hash_password "s0" "pw", "A"⟩],
   [⟨5, some 1, "T1", "S1", "Apr 01, 2025", "B1", "I1"⟩], []⟩

/-! ## Helper lemmas -/

theorem find?_isSome_of_mem {α : Type} (l : List α) (p : α → Bool) (x : α)
    (hx : x ∈ l) (hp : p x = true) : (l.find? p).isSome = true := by
  induction l with
  | nil => cases hx
  | cons a t ih =>
    rw [List.find?]
    cases ha : p a with
    | true => rfl
    | false =>
      rcases List.mem_cons.mp hx with h | h
      · subst h; rw [hp] at ha; cases ha
      · exact ih h

/-! ## Claim theorems -/

/-- C4: for every plaintext p, `verify_password p (hash_password p)` is
true, and for distinct plaintexts p ≠ q, `verify_password p
(hash_password q)` is false (credential store modelled from the spec with
an ideal collision-free derivation; the salt is explicit). -/
theorem C4_verify_roundtrip (salt p q : String) :
    verify_password p (hash_password salt p) = true ∧
    (p ≠ q → verify_password p (hash_password salt q) = false) := by
  constructor
  · simp [verify_password, hash_password]
  · intro hpq
    simp only [verify_password, hash_password, Bool.and_eq_false_iff]
    right
    simp only [beq_eq_false_iff_ne, ne_eq, derive]
    intro hcontr
    apply hpq
    have h2 := congrArg String.data hcontr
    simp only [String.data_append] at h2
    have h3 := List.append_cancel_left h2
    exact String.ext h3

/-- C4 witness: the roundtrip theorem applied at concrete salt and
plaintexts "a" and "b". -/
theorem C4_verify_roundtrip_witness :
    verify_password "a" (hash_password "s0" "a") = true ∧
    verify_password "a" (hash_password "s0" "b") = false :=
  ⟨(C4_verify_roundtrip "s0" "a" "b").1,
   (C4_verify_roundtrip "s0" "a" "b").2 (by decide)⟩

/-- C1 counterexample: with an Anonymous identity (empty session), the
new-project handler does not return Forbidden 403 — the attribute access
`current_user.id` in the gate raises `AttributeError` instead. -/
theorem C1_counterexample :
    current_identity ⟨[], [], []⟩ none = Identity.Anonymous ∧
    (add_new_project ⟨[], [], []⟩ none (some ⟨"T", "S", "B", "I"⟩)
        "May 01, 2025" 1).outcome ≠ Outcome.httpError 403 ∧
    (add_new_project ⟨[], [], []⟩ none (some ⟨"T", "S", "B", "I"⟩)
        "May 01, 2025" 1).outcome = Outcome.crash "AttributeError" := by
  decide

/-- C1 amended: the gate succeeds exactly on Authenticated identities with
user id 1; every Authenticated non-admin identity gets Forbidden 403 with
zero data-model mutation from new/edit/delete-project; an Anonymous
identity instead makes the gate raise an unhandled `AttributeError`
(still with zero mutation), not a 403. -/
theorem C1_amended (s : Store) (sess : Option Nat) (uid pid new_id : Nat)
    (form : Option CreateProjectForm) (today : String) :
    (∀ i, admin_only_gate i = GateDecision.proceed ↔
       i = Identity.Authenticated 1) ∧
    (current_identity s sess = Identity.Authenticated uid → uid ≠ 1 →
      (add_new_project s sess form today new_id).outcome
          = Outcome.httpError 403 ∧
      (add_new_project s sess form today new_id).store = s ∧
      (edit_project s sess pid form).outcome = Outcome.httpError 403 ∧
      (edit_project s sess pid form).store = s ∧
      (delete_project s sess pid).outcome = Outcome.httpError 403 ∧
      (delete_project s sess pid).store = s) ∧
    (current_identity s sess = Identity.Anonymous →
      (add_new_project s sess form today new_id).outcome
          = Outcome.crash "AttributeError" ∧
      (add_new_project s sess form today new_id).store = s ∧
      (edit_project s sess pid form).outcome
          = Outcome.crash "AttributeError" ∧
      (edit_project s sess pid form).store = s ∧
      (delete_project s sess pid).outcome
          = Outcome.crash "AttributeError" ∧
      (delete_project s sess pid).store = s) := by
  refine ⟨fun i => ?_, fun h hne => ?_, fun h => ?_⟩
  · cases i with
    | Anonymous => simp [admin_only_gate]
    | Authenticated u =>
      by_cases hu : u = 1 <;> simp [admin_only_gate, hu]
  · simp [add_new_project, edit_project, delete_project, admin_only,
          admin_only_gate, h, hne]
  · simp [add_new_project, edit_project, delete_project, admin_only,
          admin_only_gate, h]

/-- C1 witness: a store with a single non-admin user (id 2) logged in;
new-project and delete-project both return 403 and leave the store as it
was. -/
theorem C1_amended_witness :
    (add_new_project ⟨[⟨2, "b@x.com", hash_password "s0" "pw", "B"⟩], [], []⟩
        (some 2) (some ⟨"T", "S", "B", "I"⟩) "May 01, 2025" 3).outcome
      = Outcome.httpError 403 ∧
    (delete_project ⟨[⟨2, "b@x.com", hash_password "s0" "pw", "B"⟩], [], []⟩
        (some 2) 1).outcome = Outcome.httpError 403 := by
  have h := (C1_amended ⟨[⟨2, "b@x.com", hash_password "s0" "pw", "B"⟩], [], []⟩
      (some 2) 2 1 3 (some ⟨"T", "S", "B", "I"⟩) "May 01, 2025").2.1
      (by decide) (by decide)
  exact ⟨h.1, h.2.2.2.2.1⟩

/-- C5: submitting the registration form with an email that some stored
user already has leaves the store unchanged, flashes the duplicate-email
warning, redirects to login, and does not touch the session. -/
theorem C5_register_idempotent (s : Store) (sess : Option Nat)
    (form : RegisterForm) (salt : String) (new_id : Nat)
    (h : ∃ u ∈ s.users, u.email = form.email) :
    (register s sess (some form) salt new_id).store = s ∧
    (register s sess (some form) salt new_id).outcome
      = Outcome.redirect Route.login ∧
    (register s sess (some form) salt new_id).flashes
      = ["You\x27ve already signed up with that email, log in instead!"] ∧
    (register s sess (some form) salt new_id).session = sess := by
  obtain ⟨u, hu, he⟩ := h
  have hsome : (s.users.find? (fun v => v.email == form.email)).isSome = true :=
    find?_isSome_of_mem _ _ u hu (by simp [he])
  obtain ⟨v, hv⟩ := Option.isSome_iff_exists.mp hsome
  simp [register, hv]

/-- C5 witness: registering "a@x.com" again in a store that already holds
a user with that email. -/
theorem C5_register_idempotent_witness :
    (register ⟨[⟨1, "a@x.com", hash_password "s0" "pw", "A"⟩], [], []⟩ none
        (some ⟨"a@x.com", "pw2", "A2"⟩) "s1" 2).store
      = ⟨[⟨1, "a@x.com", hash_password "s0" "pw", "A"⟩], [], []⟩ ∧
    (register ⟨[⟨1, "a@x.com", hash_password "s0" "pw", "A"⟩], [], []⟩ none
        (some ⟨"a@x.com", "pw2", "A2"⟩) "s1" 2).outcome
      = Outcome.redirect Route.login := by
  have h := C5_register_idempotent
      ⟨[⟨1, "a@x.com", hash_password "s0" "pw", "A"⟩], [], []⟩ none
      ⟨"a@x.com", "pw2", "A2"⟩ "s1" 2
      ⟨⟨1, "a@x.com", hash_password "s0" "pw", "A"⟩, by simp, by simp⟩
  exact ⟨h.1, h.2.1⟩

/-- C6: a comment submission while the current identity is Anonymous
leaves the store (in particular the comment table) unchanged, flashes the
login warning, and redirects to the login page. -/
theorem C6_anonymous_comment (s : Store) (sess : Option Nat)
    (pid ncid : Nat) (text : String)
    (h : current_identity s sess = Identity.Anonymous) :
    (show_project s sess pid (some text) ncid).store = s ∧
    (show_project s sess pid (some text) ncid).outcome
      = Outcome.redirect Route.login ∧
    (show_project s sess pid (some text) ncid).flashes
      = ["You need to login or register to comment."] ∧
    (show_project s sess pid (some text) ncid).session = sess := by
  simp [show_project, h]

/-- C6 witness: an anonymous comment submission on an empty store. -/
theorem C6_anonymous_comment_witness :
    (show_project ⟨[], [], []⟩ none 1 (some "hi") 1).store
      = ⟨[], [], []⟩ ∧
    (show_project ⟨[], [], []⟩ none 1 (some "hi") 1).outcome
      = Outcome.redirect Route.login := by
  have h := C6_anonymous_comment ⟨[], [], []⟩ none 1 1 "hi" (by decide)
  exact ⟨h.1, h.2.1⟩

/-- C9: after any login request followed by logout, the session is cleared,
the current identity resolves to Anonymous, and logout always redirects to
the project list with the store untouched, whatever the prior identity. -/
theorem C9_logout_anonymous (s : Store) (sess : Option Nat)
    (form : Option LoginForm) :
    (logout (login s sess form).store (login s sess form).session).session
      = none ∧
    current_identity
      (logout (login s sess form).store (login s sess form).session).store
      (logout (login s sess form).store (login s sess form).session).session
      = Identity.Anonymous ∧
    (logout (login s sess form).store (login s sess form).session).outcome
      = Outcome.redirect Route.get_all_projects ∧
    (∀ s2 : Store, ∀ sess2 : Option Nat,
      (logout s2 sess2).session = none ∧
      (logout s2 sess2).outcome = Outcome.redirect Route.get_all_projects ∧
      (logout s2 sess2).store = s2) :=
  ⟨rfl, rfl, rfl, fun _ _ => ⟨rfl, rfl, rfl⟩⟩

/-- C2 counterexample: an authenticated user submits a comment on a
project id (7) that does not exist; a Comment row is persisted whose
project reference is null, so not every persisted comment references an
existing project. -/
theorem C2_counterexample :
    (show_project adminStore (some 1) 7 (some "hi") 1).store.comments
      = [⟨1, none, some 1, "hi"⟩] ∧
    ¬ (∀ c ∈ (show_project adminStore (some 1) 7 (some "hi") 1).store.comments,
        ∃ p ∈ (show_project adminStore (some 1) 7 (some "hi") 1).store.projects,
          c.project_id = some p.id) := by
  decide

/-- C2 amended: a comment persisted by a submission always references a
live (existing) user as its author, and references a live project
whenever the submitted project id exists in the store; when the id is
absent the persisted comment's project reference is null instead. -/
theorem C2_amended (s : Store) (sess : Option Nat) (pid ncid uid : Nat)
    (text : String) (p : Project)
    (hid : current_identity s sess = Identity.Authenticated uid)
    (hp : s.projects.find? (fun q => q.id == pid) = some p) :
    (show_project s sess pid (some text) ncid).store.comments
      = s.comments ++ [⟨ncid, some p.id, some uid, text⟩] ∧
    (∃ u ∈ s.users, u.id = uid) ∧
    p ∈ s.projects ∧
    (show_project s sess pid (some text) ncid).store.projects
      = s.projects ∧
    (show_project s sess pid (some text) ncid).store.users = s.users := by
  refine ⟨?_, ?_, List.mem_of_find?_eq_some hp, ?_, ?_⟩
  · simp [show_project, hid, hp]
  · cases sess with
    | none => simp [current_identity] at hid
    | some t =>
      cases hu : load_user s t with
      | none => simp [current_identity, hu] at hid
      | some u =>
        simp only [current_identity, hu] at hid
        injection hid with h2
        exact ⟨u, List.mem_of_find?_eq_some hu, h2⟩
  · simp [show_project, hid]
  · simp [show_project, hid]

/-- C2 witness: the admin comments on the existing project id 5; the new
comment row carries the live author id 1 and the live project id 5. -/
theorem C2_amended_witness :
    (show_project adminProjectStore (some 1) 5 (some "hi") 1).store.comments
      = [⟨1, some 5, some 1, "hi"⟩] ∧
    (∃ u ∈ adminProjectStore.users, u.id = 1) := by
  have h := C2_amended adminProjectStore (some 1) 5 1 1 "hi"
      ⟨5, some 1, "T1", "S1", "Apr 01, 2025", "B1", "I1"⟩
      (by decide) (by decide)
  exact ⟨h.1, h.2.1⟩

/-- C3: the admin submits a new project whose title "T1" equals the title
of the stored project; the store-level unique constraint makes the commit
raise an unhandled IntegrityError (a crash, not a rendered validation
error), and no second project with that title is created. -/
theorem C3_duplicate_title_crashes :
    (add_new_project adminProjectStore (some 1) (some ⟨"T1", "S2", "B2", "I2"⟩)
        "May 01, 2025" 6).outcome = Outcome.crash "IntegrityError" ∧
    (add_new_project adminProjectStore (some 1) (some ⟨"T1", "S2", "B2", "I2"⟩)
        "May 01, 2025" 6).store = adminProjectStore := by
  decide

/-- C7 counterexample: a GET of the show-project handler for an id absent
from an empty store does not produce a Not Found (404) outcome; it renders
the project page normally (with no project). -/
theorem C7_counterexample :
    (⟨[], [], []⟩ : Store).projects.find? (fun p => p.id == 1) = none ∧
    (show_project ⟨[], [], []⟩ none 1 none 0).outcome
      ≠ Outcome.httpError 404 ∧
    (show_project ⟨[], [], []⟩ none 1 none 0).outcome
      = Outcome.render "project.html" := by
  decide

/-- C7 amended: a GET for a project id with no matching project yields a
normal render of the project page (with an absent project) and leaves the
store unchanged — no explicit NotFound outcome is produced. -/
theorem C7_amended (s : Store) (sess : Option Nat) (pid : Nat)
    (h : s.projects.find? (fun p => p.id == pid) = none) :
    (show_project s sess pid none 0).outcome
      = Outcome.render "project.html" ∧
    (show_project s sess pid none 0).store = s ∧
    (∀ p ∈ s.projects, p.id ≠ pid) := by
  refine ⟨rfl, rfl, fun p hp => ?_⟩
  have h2 := List.find?_eq_none.mp h p hp
  simpa using h2

/-- C7 witness: the GET on the empty store renders the page. -/
theorem C7_amended_witness :
    (show_project ⟨[], [], []⟩ none 1 none 0).outcome
      = Outcome.render "project.html" ∧
    (show_project ⟨[], [], []⟩ none 1 none 0).store
      = (⟨[], [], []⟩ : Store) := by
  have h := C7_amended ⟨[], [], []⟩ none 1 (by decide)
  exact ⟨h.1, h.2.1⟩

/-- C8: a successful edit-project submission by the admin on an existing
project overwrites exactly the title, subtitle, image URL and body of that
row, keeps every row's author reference and date unchanged, leaves users
and comments untouched, and redirects to the project's detail page. -/
theorem C8_edit_overwrites (s : Store) (sess : Option Nat) (pid : Nat)
    (form : CreateProjectForm) (p : Project)
    (hadmin : current_identity s sess = Identity.Authenticated 1)
    (hfind : s.projects.find? (fun q => q.id == pid) = some p)
    (huniq : s.projects.any
        (fun q => q.id != p.id && q.title == form.title) = false) :
    (edit_project s sess pid (some form)).store.projects
      = s.projects.map (fun q =>
          if q.id == p.id then
            { q with title := form.title, subtitle := form.subtitle,
                     img_url := form.img_url, body := form.body }
          else q) ∧
    (edit_project s sess pid (some form)).outcome
      = Outcome.redirect (Route.show_project p.id) ∧
    (∀ q : Project,
      ((if q.id == p.id then
          { q with title := form.title, subtitle := form.subtitle,
                   img_url := form.img_url, body := form.body }
        else q) : Project).author_id = q.author_id ∧
      ((if q.id == p.id then
          { q with title := form.title, subtitle := form.subtitle,
                   img_url := form.img_url, body := form.body }
        else q) : Project).date = q.date) ∧
    (edit_project s sess pid (some form)).store.users = s.users ∧
    (edit_project s sess pid (some form)).store.comments = s.comments := by
  refine ⟨?_, ?_, fun q => ⟨by split <;> rfl, by split <;> rfl⟩, ?_, ?_⟩ <;>
    simp [edit_project, admin_only, admin_only_gate, hadmin,
          edit_project_inner, hfind, huniq]

/-- C8 witness: the admin edits project 5 with new field values; the row
keeps its author (1) and date and takes the four new values, and the
handler redirects to the detail page of project 5. -/
theorem C8_edit_overwrites_witness :
    (edit_project adminProjectStore (some 1) 5
        (some ⟨"T2", "S2", "B2", "I2"⟩)).outcome
      = Outcome.redirect (Route.show_project 5) ∧
    (edit_project adminProjectStore (some 1) 5
        (some ⟨"T2", "S2", "B2", "I2"⟩)).store.projects
      = [⟨5, some 1, "T2", "S2", "Apr 01, 2025", "B2", "I2"⟩] := by
  have h := C8_edit_overwrites adminProjectStore (some 1) 5
      ⟨"T2", "S2", "B2", "I2"⟩
      ⟨5, some 1, "T1", "S1", "Apr 01, 2025", "B1", "I1"⟩
      (by decide) (by decide) (by decide)
  refine ⟨h.2.1, ?_⟩
  rw [h.1]
  decide

/-- C10: with the admin logged in and a project id absent from the store,
the delete-project handler crashes with SQLAlchemy's
UnmappedInstanceError (db.session.delete(None)) and the edit-project
handler crashes with AttributeError (project.title on None); neither
returns a handled Not Found (404) outcome. -/
theorem C10_missing_id_crashes (s : Store) (sess : Option Nat) (pid : Nat)
    (form : Option CreateProjectForm)
    (hadmin : current_identity s sess = Identity.Authenticated 1)
    (hmiss : s.projects.find? (fun p => p.id == pid) = none) :
    (delete_project s sess pid).outcome
      = Outcome.crash "UnmappedInstanceError" ∧
    (edit_project s sess pid form).outcome
      = Outcome.crash "AttributeError" ∧
    (delete_project s sess pid).outcome ≠ Outcome.httpError 404 ∧
    (edit_project s sess pid form).outcome ≠ Outcome.httpError 404 := by
  simp [delete_project, edit_project, admin_only, admin_only_gate, hadmin,
        delete_project_inner, edit_project_inner, hmiss]

/-- C10 witness: the admin requests delete and edit of the absent project
id 5 on a store with no projects. -/
theorem C10_missing_id_crashes_witness :
    (delete_project adminStore (some 1) 5).outcome
      = Outcome.crash "UnmappedInstanceError" ∧
    (edit_project adminStore (some 1) 5 none).outcome
      = Outcome.crash "AttributeError" := by
  have h := C10_missing_id_crashes adminStore (some 1) 5 none
      (by decide) (by decide)
  exact ⟨h.1, h.2.1⟩
